import Mathlib

/-!
Shallow embedding of `run.py` (a minimal computer-use agent driver):
the `ComputerUseTool` action dispatcher and the `ComputerUseAgent`
conversation loop, together with proofs about their behaviour.

Modelling conventions:
* Python `float` request fields are modelled as `ℚ`; Python `int()`
  truncation toward zero is `pyInt`.
* The pyautogui backend is modelled as an explicit `ToolState`: the
  current cursor position plus an append-only log of the input
  primitives invoked (`InputEvent`).
* Screenshot capture is modelled abstractly: the captured image and the
  timestamped file name are identified by a per-state frame counter,
  since the pixel contents live outside the program.
* A tool-result message stores the result `Payload` itself; the source
  stores its JSON serialization (`ToolResult.as_json`), which is a
  faithful encoding of the same data.
* `json.loads` of a tool call's argument string either fails (modelled
  as `Arguments.malformed`) or yields a parsed request
  (`Arguments.parsed`).
-/

deriving instance DecidableEq for Except

/-- Python `int()` truncation toward zero on a rational. -/
def pyInt (q : ℚ) : ℤ := if 0 ≤ q then q.floor else q.ceil

/-- Python `x or ""` on an optional string (`None` and `""` are falsy,
both give `""`, so this is `getD ""`). -/
def pyOr (o : Option String) : String := o.getD ""

/-- Python truthiness of an `Optional[str]`: `None` and `""` are falsy. -/
def strTruthy : Option String → Bool
  | none => false
  | some s => s != ""

/-- Python truthiness of an `Optional[List]` (`if coord:`): `None` and
the empty list are falsy. -/
def listTruthy : Option (List ℚ) → Bool
  | none => false
  | some l => !l.isEmpty

/-- Errors raised by the tool layer; the source raises `ValueError`
with a message for every validation failure and for unsupported
actions. -/
inductive ToolError where
  | valueError (msg : String)
deriving DecidableEq

/-- An action request: the parsed JSON arguments of one tool call
(`params` in the source).  The `action` key is required by the schema;
the remaining fields are optional and action-specific. -/
structure ActionRequest where
  action : String
  keys : Option (List String) := none
  text : Option String := none
  coordinate : Option (List ℚ) := none
  pixels : Option ℚ := none
  time : Option ℚ := none
  status : Option String := none
deriving DecidableEq

/-- Source `_ensure_xy`: fails unless the coordinate is a present
two-element list; coerces both entries with `int()`. -/
def _ensure_xy : Option (List ℚ) → Except ToolError (ℤ × ℤ)
  | some [x, y] => Except.ok (pyInt x, pyInt y)
  | _ => Except.error (ToolError.valueError "coordinate=[x, y] is required for this action.")

/-- Source `_maybe_int`: `int(value)` with a default for `None`. -/
def _maybe_int (value : Option ℚ) (default : ℤ := 0) : ℤ :=
  match value with
  | none => default
  | some q => pyInt q

/-- One primitive invocation on the pyautogui / time backend.  The
events a handler emits, in order, model its side effects on the
display-input layer. -/
inductive InputEvent where
  | moveTo (x y : ℤ) (duration : ℚ)
  | clickAt (x y : ℤ) (button : String)
  | clickInPlace (button : String)
  | doubleClickAt (x y : ℤ)
  | tripleClickAt (x y : ℤ)
  | mouseDown
  | dragTo (x y : ℤ) (duration : ℚ) (button : String)
  | mouseUp
  | scrollBy (pixels : ℤ)
  | hscrollBy (pixels : ℤ)
  | typewrite (text : String) (interval : ℚ)
  | keyDown (key : String)
  | keyUp (key : String)
  | sleep (seconds : ℚ)
deriving DecidableEq

/-- Geometry of one monitor as enumerated by the capture backend
(`sct.monitors`; index 0 is the combined virtual display). -/
structure MonitorGeom where
  width : ℤ
  height : ℤ
deriving DecidableEq

/-- Static configuration of `ComputerUseTool` (constructor arguments)
plus the monitor table of the capture backend. -/
structure ToolConfig where
  screenshot_dir : String
  monitor_index : Nat := 1
  mouse_move_duration : ℚ := 0
  drag_duration : ℚ := 15 / 100
  monitors : List MonitorGeom := []
deriving DecidableEq

/-- Mutable state of the display-input backend visible to the tool: the
cursor position, the log of emitted input primitives, and a frame
counter standing for the capture timestamp (`_now_ts`). -/
structure ToolState where
  cursor : ℤ × ℤ
  events : List InputEvent := []
  frame : Nat := 0
deriving DecidableEq

/-- The screenshot record attached to a result payload: data-URI image,
on-disk path, post-action cursor position and display geometry.  Image
bytes and timestamp are abstracted by the frame counter. -/
structure ScreenshotRef where
  image : String
  path : String
  cursor : ℤ × ℤ
  display : MonitorGeom
deriving DecidableEq

/-- The JSON payload of a `ToolResult`.  Fields other than `status` are
only present for some actions (`none` = key absent). -/
structure Payload where
  status : String
  detail : Option String := none
  text : Option String := none
  result : Option String := none
  screenshot : Option ScreenshotRef := none
deriving DecidableEq

/-- Source dataclass `ToolResult`: a wrapper around the payload. -/
structure ToolResult where
  payload : Payload
deriving DecidableEq

/-- Source `ComputerUseTool._attach_screenshot`: capture the configured
monitor, persist the image under a fresh name, and extend the payload
with the encoded image, path, current cursor position and display
geometry.  A missing monitor index yields a zero geometry here (the
source would raise `IndexError`; no claim involves that case). -/
def _attach_screenshot (cfg : ToolConfig) (st : ToolState) (payload : Payload) :
    Payload × ToolState :=
  let monitor := cfg.monitors.getD cfg.monitor_index { width := 0, height := 0 }
  let ref : ScreenshotRef :=
    { image := "data:image/png;base64,frame-" ++ toString st.frame
      path := cfg.screenshot_dir ++ "/" ++ toString st.frame ++ ".png"
      cursor := st.cursor
      display := monitor }
  ({ payload with screenshot := some ref }, { st with frame := st.frame + 1 })

/-- Source `ComputerUseTool._mouse_move`. -/
def _mouse_move (cfg : ToolConfig) (st : ToolState) (params : ActionRequest) :
    Except ToolError (Payload × ToolState) :=
  match _ensure_xy params.coordinate with
  | Except.error e => Except.error e
  | Except.ok (x, y) =>
    Except.ok
      ({ status := "ok"
         detail := some ("Moved to (" ++ toString x ++ ", " ++ toString y ++ ").") },
       { st with cursor := (x, y)
                 events := st.events ++ [InputEvent.moveTo x y cfg.mouse_move_duration] })

/-- Source `ComputerUseTool._left_click`. -/
def _left_click (cfg : ToolConfig) (st : ToolState) (params : ActionRequest) :
    Except ToolError (Payload × ToolState) :=
  let coord := params.coordinate
  if listTruthy coord then
    match _ensure_xy coord with
    | Except.error e => Except.error e
    | Except.ok (x, y) =>
      Except.ok
        ({ status := "ok"
           detail := some ("Left click at (" ++ toString x ++ ", " ++ toString y ++ ").") },
         { st with cursor := (x, y)
                   events := st.events ++ [InputEvent.clickAt x y "left"] })
  else
    Except.ok
      ({ status := "ok", detail := some "Left click at current cursor." },
       { st with events := st.events ++ [InputEvent.clickInPlace "left"] })

/-- Source `ComputerUseTool._right_click`. -/
def _right_click (cfg : ToolConfig) (st : ToolState) (params : ActionRequest) :
    Except ToolError (Payload × ToolState) :=
  let coord := params.coordinate
  if listTruthy coord then
    match _ensure_xy coord with
    | Except.error e => Except.error e
    | Except.ok (x, y) =>
      Except.ok
        ({ status := "ok"
           detail := some ("Right click at (" ++ toString x ++ ", " ++ toString y ++ ").") },
         { st with cursor := (x, y)
                   events := st.events ++ [InputEvent.clickAt x y "right"] })
  else
    Except.ok
      ({ status := "ok", detail := some "Right click at current cursor." },
       { st with events := st.events ++ [InputEvent.clickInPlace "right"] })

/-- Source `ComputerUseTool._middle_click`. -/
def _middle_click (cfg : ToolConfig) (st : ToolState) (params : ActionRequest) :
    Except ToolError (Payload × ToolState) :=
  let coord := params.coordinate
  if listTruthy coord then
    match _ensure_xy coord with
    | Except.error e => Except.error e
    | Except.ok (x, y) =>
      Except.ok
        ({ status := "ok"
           detail := some ("Middle click at (" ++ toString x ++ ", " ++ toString y ++ ").") },
         { st with cursor := (x, y)
                   events := st.events ++ [InputEvent.clickAt x y "middle"] })
  else
    Except.ok
      ({ status := "ok", detail := some "Middle click at current cursor." },
       { st with events := st.events ++ [InputEvent.clickInPlace "middle"] })

/-- Source `ComputerUseTool._double_click`. -/
def _double_click (cfg : ToolConfig) (st : ToolState) (params : ActionRequest) :
    Except ToolError (Payload × ToolState) :=
  match _ensure_xy params.coordinate with
  | Except.error e => Except.error e
  | Except.ok (x, y) =>
    Except.ok
      ({ status := "ok"
         detail := some ("Double click at (" ++ toString x ++ ", " ++ toString y ++ ").") },
       { st with cursor := (x, y)
                 events := st.events ++ [InputEvent.doubleClickAt x y] })

/-- Source `ComputerUseTool._triple_click`. -/
def _triple_click (cfg : ToolConfig) (st : ToolState) (params : ActionRequest) :
    Except ToolError (Payload × ToolState) :=
  match _ensure_xy params.coordinate with
  | Except.error e => Except.error e
  | Except.ok (x, y) =>
    Except.ok
      ({ status := "ok"
         detail := some ("Triple click at (" ++ toString x ++ ", " ++ toString y ++ ").") },
       { st with cursor := (x, y)
                 events := st.events ++ [InputEvent.tripleClickAt x y] })

/-- Source `ComputerUseTool._left_click_drag`: press at the current
position, drag to the target, release. -/
def _left_click_drag (cfg : ToolConfig) (st : ToolState) (params : ActionRequest) :
    Except ToolError (Payload × ToolState) :=
  match _ensure_xy params.coordinate with
  | Except.error e => Except.error e
  | Except.ok (x, y) =>
    Except.ok
      ({ status := "ok"
         detail := some ("Drag to (" ++ toString x ++ ", " ++ toString y ++ ").") },
       { st with cursor := (x, y)
                 events := st.events ++
                   [InputEvent.mouseDown,
                    InputEvent.dragTo x y cfg.drag_duration "left",
                    InputEvent.mouseUp] })

/-- Source `ComputerUseTool._scroll`: `pixels` defaults to 0. -/
def _scroll (cfg : ToolConfig) (st : ToolState) (params : ActionRequest) :
    Except ToolError (Payload × ToolState) :=
  let pixels := _maybe_int params.pixels
  Except.ok
    ({ status := "ok", detail := some ("Scroll " ++ toString pixels ++ " vertically.") },
     { st with events := st.events ++ [InputEvent.scrollBy pixels] })

/-- Source `ComputerUseTool._hscroll`: `pixels` defaults to 0. -/
def _hscroll (cfg : ToolConfig) (st : ToolState) (params : ActionRequest) :
    Except ToolError (Payload × ToolState) :=
  let pixels := _maybe_int params.pixels
  Except.ok
    ({ status := "ok", detail := some ("Scroll " ++ toString pixels ++ " horizontally.") },
     { st with events := st.events ++ [InputEvent.hscrollBy pixels] })

/-- Source `ComputerUseTool._type`: `text` must be present (the empty
string is accepted); characters are typed at a fixed interval. -/
def _type (cfg : ToolConfig) (st : ToolState) (params : ActionRequest) :
    Except ToolError (Payload × ToolState) :=
  match params.text with
  | none => Except.error (ToolError.valueError "text is required for action=type.")
  | some text =>
    Except.ok
      ({ status := "ok", detail := some ("Typed \"" ++ text.take 50 ++ "\".") },
       { st with events := st.events ++ [InputEvent.typewrite text (1 / 100)] })

/-- Source `ComputerUseTool._key`: a chord — every key down in request
order, then every key up in reverse order.  `None` and the empty list
both fail (`params.get("keys") or []` then `if not keys`). -/
def _key (cfg : ToolConfig) (st : ToolState) (params : ActionRequest) :
    Except ToolError (Payload × ToolState) :=
  let keys := (params.keys).getD []
  if keys.isEmpty then
    Except.error (ToolError.valueError "keys is required for action=key.")
  else
    Except.ok
      ({ status := "ok", detail := some ("Pressed keys " ++ toString keys ++ ".") },
       { st with events := st.events ++ keys.map InputEvent.keyDown ++
           (keys.reverse.map InputEvent.keyUp) })

/-- Source `ComputerUseTool._wait`: `time` must be present. -/
def _wait (cfg : ToolConfig) (st : ToolState) (params : ActionRequest) :
    Except ToolError (Payload × ToolState) :=
  match params.time with
  | none => Except.error (ToolError.valueError "time is required for action=wait.")
  | some duration =>
    Except.ok
      ({ status := "ok", detail := some ("Waited " ++ toString duration ++ " seconds.") },
       { st with events := st.events ++ [InputEvent.sleep duration] })

/-- Source `ComputerUseTool._answer`: pure bookkeeping, no display
effect; a missing text defaults to the empty string. -/
def _answer (cfg : ToolConfig) (st : ToolState) (params : ActionRequest) :
    Except ToolError (Payload × ToolState) :=
  Except.ok ({ status := "answer", text := some (pyOr params.text) }, st)

/-- Source `ComputerUseTool._terminate`: `status` must be exactly
`success` or `failure`. -/
def _terminate (cfg : ToolConfig) (st : ToolState) (params : ActionRequest) :
    Except ToolError (Payload × ToolState) :=
  if params.status = some "success" ∨ params.status = some "failure" then
    Except.ok ({ status := "terminate", result := params.status }, st)
  else
    Except.error (ToolError.valueError "status must be success or failure for action=terminate.")

/-- Source `ComputerUseTool.call`: dispatch on the action name (the
source's handler dictionary, rendered as a match with the same
key-to-handler mapping), run the handler, and attach a screenshot to
the result unless the action is `answer` or `terminate`. -/
def ComputerUseTool.call (cfg : ToolConfig) (st : ToolState) (params : ActionRequest) :
    Except ToolError (ToolResult × ToolState) :=
  let handled : Except ToolError (Payload × ToolState) :=
    match params.action with
    | "mouse_move" => _mouse_move cfg st params
    | "left_click" => _left_click cfg st params
    | "right_click" => _right_click cfg st params
    | "middle_click" => _middle_click cfg st params
    | "double_click" => _double_click cfg st params
    | "triple_click" => _triple_click cfg st params
    | "left_click_drag" => _left_click_drag cfg st params
    | "scroll" => _scroll cfg st params
    | "hscroll" => _hscroll cfg st params
    | "type" => _type cfg st params
    | "key" => _key cfg st params
    | "wait" => _wait cfg st params
    | "answer" => _answer cfg st params
    | "terminate" => _terminate cfg st params
    | other => Except.error (ToolError.valueError ("Unsupported action: " ++ other))
  match handled with
  | Except.error e => Except.error e
  | Except.ok (payload, st') =>
    if params.action = "answer" ∨ params.action = "terminate" then
      Except.ok ({ payload := payload }, st')
    else
      let attached := _attach_screenshot cfg st' payload
      Except.ok ({ payload := attached.1 }, attached.2)

/-- Outcome of `json.loads` on one tool call's argument string: either
the string is not valid JSON (the source raises `json.JSONDecodeError`)
or it parses to an action request. -/
inductive Arguments where
  | malformed (raw : String)
  | parsed (req : ActionRequest)
deriving DecidableEq

/-- One tool call taken from the model's reply: call identifier,
function name and raw arguments. -/
structure ToolCallMsg where
  id : String
  name : String
  arguments : Arguments
deriving DecidableEq

/-- One model reply: optional text content and the list of tool calls
(the source normalizes `None` to the empty list). -/
structure ModelReply where
  content : Option String := none
  tool_calls : List ToolCallMsg := []
deriving DecidableEq

/-- One entry of the conversation history. -/
inductive Message where
  | system (content : String)
  | user (content : String)
  | assistant (reply : ModelReply)
  | tool (tool_call_id : String) (name : String) (content : Payload)
deriving DecidableEq

/-- Source `SYSTEM_PROMPT`. -/
def SYSTEM_PROMPT : String :=
  "You are an automation agent with direct access to a GUI computer.\n" ++
  "- Be precise and avoid unnecessary movements.\n" ++
  "- Always inspect the most recent screenshot before clicking.\n" ++
  "- If an application needs time to load, wait before taking more actions.\n" ++
  "- You must finish by calling action=answer with the final response and action=terminate with success/failure."

/-- Mutable state of `ComputerUseAgent` during `run`: the conversation
history, the recorded provisional answer and termination verdict, and
the tool backend state. -/
structure RunState where
  messages : List Message
  final_answer : Option String := none
  terminated : Option String := none
  tool : ToolState
deriving DecidableEq

/-- Errors that propagate uncaught out of the loop body. -/
inductive RunError where
  | jsonDecodeError (raw : String)
  | toolError (e : ToolError)
deriving DecidableEq

/-- Result of a run: normal completion (`break` or the turn range being
exhausted), or an uncaught exception with the state at that point. -/
inductive RunResult where
  | finished (s : RunState)
  | crashed (e : RunError) (s : RunState)
deriving DecidableEq

/-- Append the model's reply message to history verbatim. -/
def withAssistant (s : RunState) (reply : ModelReply) : RunState :=
  { s with messages := s.messages ++ [Message.assistant reply] }

/-- Initial agent state: system prompt plus the user task. -/
def initState (task : String) (toolSt : ToolState) : RunState :=
  { messages := [Message.system SYSTEM_PROMPT, Message.user task]
    tool := toolSt }

/-- The body of the `for tool_call in tool_calls` loop in
`ComputerUseAgent.run`: parse each call's arguments, dispatch it to the
tool, record answer/terminate bookkeeping, and append one `tool`-role
result message per call, in call order.  A JSON failure or a tool
error propagates immediately (uncaught in the source), carrying the
state reached so far. -/
def dispatchCalls (cfg : ToolConfig) : RunState → List ToolCallMsg →
    Except (RunError × RunState) RunState
  | s, [] => Except.ok s
  | s, tc :: rest =>
    match tc.arguments with
    | Arguments.malformed raw => Except.error (RunError.jsonDecodeError raw, s)
    | Arguments.parsed req =>
      match ComputerUseTool.call cfg s.tool req with
      | Except.error e => Except.error (RunError.toolError e, s)
      | Except.ok (result, toolSt) =>
        let payload := result.payload
        let s1 : RunState :=
          { messages := s.messages ++ [Message.tool tc.id tc.name payload]
            final_answer :=
              if payload.status = "answer" then some (payload.text.getD "")
              else s.final_answer
            terminated :=
              if payload.status = "terminate" then payload.result else s.terminated
            tool := toolSt }
        dispatchCalls cfg s1 rest

/-- Source `ComputerUseAgent.run`, with the model endpoint abstracted
as an oracle giving the reply of each 1-based step: each turn appends
the reply, ends the run on a reply without tool calls (its text is the
final answer), otherwise dispatches every call of the round and then
stops if a truthy termination verdict was recorded; the `for step in
range(1, max_turns + 1)` bound is the `fuel` argument. -/
def runLoop (cfg : ToolConfig) (oracle : Nat → ModelReply) :
    Nat → Nat → RunState → RunResult
  | _, 0, s => RunResult.finished s
  | step, fuel + 1, s =>
    let reply := oracle step
    let s0 := withAssistant s reply
    if reply.tool_calls = [] then
      RunResult.finished { s0 with final_answer := some (pyOr reply.content) }
    else
      match dispatchCalls cfg s0 reply.tool_calls with
      | Except.error (e, s1) => RunResult.crashed e s1
      | Except.ok s1 =>
        if strTruthy s1.terminated then RunResult.finished s1
        else runLoop cfg oracle (step + 1) fuel s1

/-- A whole run from the initial state, `max_turns` rounds at most. -/
def ComputerUseAgent.run (cfg : ToolConfig) (oracle : Nat → ModelReply)
    (task : String) (max_turns : Nat) (toolSt : ToolState) : RunResult :=
  runLoop cfg oracle 1 max_turns (initState task toolSt)

/-- Whether a history entry is the `tool`-role result correlated to the
given call: same call identifier and function name. -/
def isResultFor (tc : ToolCallMsg) : Message → Bool
  | Message.tool id name _ => id == tc.id && name == tc.name
  | _ => false

/-- The messages `ms` are exactly one `tool`-role result per call of
`calls`, in call order, each carrying its originating call's
identifier and name. -/
def resultsFor (calls : List ToolCallMsg) (ms : List Message) : Bool :=
  ms.length == calls.length && (calls.zip ms).all fun p => isResultFor p.1 p.2

/-- Whether a history entry is a `tool`-role result whose payload
signals termination. -/
def isTerminateMsg : Message → Bool
  | Message.tool _ _ p => p.status == "terminate"
  | _ => false

/-- Extract the state of a normally finished run (used to name the
result state of concrete runs in closed statements). -/
def finishedState (r : RunResult) (default : RunState) : RunState :=
  match r with
  | RunResult.finished s => s
  | RunResult.crashed _ _ => default

/-- Extract the history carried by a run result. -/
def messagesOf (r : RunResult) : List Message :=
  match r with
  | RunResult.finished s => s.messages
  | RunResult.crashed _ s => s.messages

/-- The monitor geometry the screenshot service reports for a
configuration. -/
def monitorOf (cfg : ToolConfig) : MonitorGeom :=
  cfg.monitors.getD cfg.monitor_index { width := 0, height := 0 }

/-- A successful `_mouse_move` payload has `ok` status, no result
field and no screenshot yet. -/
theorem _mouse_move_ok_payload {cfg st req payload st2}
    (h : _mouse_move cfg st req = Except.ok (payload, st2)) :
    payload.status = "ok" ∧ payload.result = none ∧ payload.screenshot = none := by
  unfold _mouse_move at h
  cases hc : _ensure_xy req.coordinate <;> rw [hc] at h
  · exact absurd h (by simp)
  · obtain ⟨h1, h2⟩ := by simpa using h
    subst h1
    exact ⟨rfl, rfl, rfl⟩

/-- A successful `_left_click` payload has `ok` status, no result field
and no screenshot yet. -/
theorem _left_click_ok_payload {cfg st req payload st2}
    (h : _left_click cfg st req = Except.ok (payload, st2)) :
    payload.status = "ok" ∧ payload.result = none ∧ payload.screenshot = none := by
  unfold _left_click at h
  dsimp only at h
  split at h
  · cases hc : _ensure_xy req.coordinate <;> rw [hc] at h
    · exact absurd h (by simp)
    · obtain ⟨h1, h2⟩ := by simpa using h
      subst h1
      exact ⟨rfl, rfl, rfl⟩
  · obtain ⟨h1, h2⟩ := by simpa using h
    subst h1
    exact ⟨rfl, rfl, rfl⟩

/-- A successful `_right_click` payload has `ok` status, no result
field and no screenshot yet. -/
theorem _right_click_ok_payload {cfg st req payload st2}
    (h : _right_click cfg st req = Except.ok (payload, st2)) :
    payload.status = "ok" ∧ payload.result = none ∧ payload.screenshot = none := by
  unfold _right_click at h
  dsimp only at h
  split at h
  · cases hc : _ensure_xy req.coordinate <;> rw [hc] at h
    · exact absurd h (by simp)
    · obtain ⟨h1, h2⟩ := by simpa using h
      subst h1
      exact ⟨rfl, rfl, rfl⟩
  · obtain ⟨h1, h2⟩ := by simpa using h
    subst h1
    exact ⟨rfl, rfl, rfl⟩

/-- A successful `_middle_click` payload has `ok` status, no result
field and no screenshot yet. -/
theorem _middle_click_ok_payload {cfg st req payload st2}
    (h : _middle_click cfg st req = Except.ok (payload, st2)) :
    payload.status = "ok" ∧ payload.result = none ∧ payload.screenshot = none := by
  unfold _middle_click at h
  dsimp only at h
  split at h
  · cases hc : _ensure_xy req.coordinate <;> rw [hc] at h
    · exact absurd h (by simp)
    · obtain ⟨h1, h2⟩ := by simpa using h
      subst h1
      exact ⟨rfl, rfl, rfl⟩
  · obtain ⟨h1, h2⟩ := by simpa using h
    subst h1
    exact ⟨rfl, rfl, rfl⟩

/-- A successful `_double_click` payload has `ok` status, no result
field and no screenshot yet. -/
theorem _double_click_ok_payload {cfg st req payload st2}
    (h : _double_click cfg st req = Except.ok (payload, st2)) :
    payload.status = "ok" ∧ payload.result = none ∧ payload.screenshot = none := by
  unfold _double_click at h
  cases hc : _ensure_xy req.coordinate <;> rw [hc] at h
  · exact absurd h (by simp)
  · obtain ⟨h1, h2⟩ := by simpa using h
    subst h1
    exact ⟨rfl, rfl, rfl⟩

/-- A successful `_triple_click` payload has `ok` status, no result
field and no screenshot yet. -/
theorem _triple_click_ok_payload {cfg st req payload st2}
    (h : _triple_click cfg st req = Except.ok (payload, st2)) :
    payload.status = "ok" ∧ payload.result = none ∧ payload.screenshot = none := by
  unfold _triple_click at h
  cases hc : _ensure_xy req.coordinate <;> rw [hc] at h
  · exact absurd h (by simp)
  · obtain ⟨h1, h2⟩ := by simpa using h
    subst h1
    exact ⟨rfl, rfl, rfl⟩

/-- A successful `_left_click_drag` payload has `ok` status, no result
field and no screenshot yet. -/
theorem _left_click_drag_ok_payload {cfg st req payload st2}
    (h : _left_click_drag cfg st req = Except.ok (payload, st2)) :
    payload.status = "ok" ∧ payload.result = none ∧ payload.screenshot = none := by
  unfold _left_click_drag at h
  cases hc : _ensure_xy req.coordinate <;> rw [hc] at h
  · exact absurd h (by simp)
  · obtain ⟨h1, h2⟩ := by simpa using h
    subst h1
    exact ⟨rfl, rfl, rfl⟩

/-- A successful `_scroll` payload has `ok` status, no result field and
no screenshot yet. -/
theorem _scroll_ok_payload {cfg st req payload st2}
    (h : _scroll cfg st req = Except.ok (payload, st2)) :
    payload.status = "ok" ∧ payload.result = none ∧ payload.screenshot = none := by
  unfold _scroll at h
  dsimp only at h
  obtain ⟨h1, h2⟩ := by simpa using h
  subst h1
  exact ⟨rfl, rfl, rfl⟩

/-- A successful `_hscroll` payload has `ok` status, no result field
and no screenshot yet. -/
theorem _hscroll_ok_payload {cfg st req payload st2}
    (h : _hscroll cfg st req = Except.ok (payload, st2)) :
    payload.status = "ok" ∧ payload.result = none ∧ payload.screenshot = none := by
  unfold _hscroll at h
  dsimp only at h
  obtain ⟨h1, h2⟩ := by simpa using h
  subst h1
  exact ⟨rfl, rfl, rfl⟩

/-- A successful `_type` payload has `ok` status, no result field and
no screenshot yet. -/
theorem _type_ok_payload {cfg st req payload st2}
    (h : _type cfg st req = Except.ok (payload, st2)) :
    payload.status = "ok" ∧ payload.result = none ∧ payload.screenshot = none := by
  unfold _type at h
  cases hc : req.text <;> rw [hc] at h
  · exact absurd h (by simp)
  · obtain ⟨h1, h2⟩ := by simpa using h
    subst h1
    exact ⟨rfl, rfl, rfl⟩

/-- A successful `_key` payload has `ok` status, no result field and no
screenshot yet. -/
theorem _key_ok_payload {cfg st req payload st2}
    (h : _key cfg st req = Except.ok (payload, st2)) :
    payload.status = "ok" ∧ payload.result = none ∧ payload.screenshot = none := by
  unfold _key at h
  dsimp only at h
  split at h
  · exact absurd h (by simp)
  · obtain ⟨h1, h2⟩ := by simpa using h
    subst h1
    exact ⟨rfl, rfl, rfl⟩

/-- A successful `_wait` payload has `ok` status, no result field and
no screenshot yet. -/
theorem _wait_ok_payload {cfg st req payload st2}
    (h : _wait cfg st req = Except.ok (payload, st2)) :
    payload.status = "ok" ∧ payload.result = none ∧ payload.screenshot = none := by
  unfold _wait at h
  cases hc : req.time <;> rw [hc] at h
  · exact absurd h (by simp)
  · obtain ⟨h1, h2⟩ := by simpa using h
    subst h1
    exact ⟨rfl, rfl, rfl⟩

/-- Classification of every successful dispatch: a non-bookkeeping
action yields an `ok` payload with a screenshot capturing the
post-action cursor and the configured monitor; `answer` and
`terminate` yield their bookkeeping payloads with no screenshot. -/
theorem call_ok_shape (cfg : ToolConfig) (st : ToolState) (req : ActionRequest)
    (res : ToolResult) (st' : ToolState)
    (h : ComputerUseTool.call cfg st req = Except.ok (res, st')) :
    (req.action ≠ "answer" ∧ req.action ≠ "terminate" ∧ res.payload.status = "ok" ∧
       res.payload.result = none ∧
       ∃ ref, res.payload.screenshot = some ref ∧ ref.cursor = st'.cursor ∧
         ref.display = monitorOf cfg)
  ∨ (req.action = "answer" ∧ res.payload.status = "answer" ∧
       res.payload.result = none ∧ res.payload.screenshot = none ∧
       res.payload.text = some (pyOr req.text))
  ∨ (req.action = "terminate" ∧ res.payload.status = "terminate" ∧
       (res.payload.result = some "success" ∨ res.payload.result = some "failure") ∧
       res.payload.screenshot = none) := by
  unfold ComputerUseTool.call at h
  dsimp only at h
  split at h
  next e heq => exact absurd h (by simp)
  next payload st2 heq =>
    split at heq
    case h_13 =>
      rename_i hA
      unfold _answer at heq
      obtain ⟨h1, h2⟩ := by simpa using heq
      subst h1
      rw [hA] at h
      rw [if_pos (by decide)] at h
      injection h with h
      injection h with h1 h2
      subst h1
      subst h2
      right; left
      exact ⟨hA, rfl, rfl, rfl, rfl⟩
    case h_14 =>
      rename_i hA
      unfold _terminate at heq
      split at heq
      · obtain ⟨h1, h2⟩ := by simpa using heq
        subst h1
        rw [hA] at h
        rw [if_pos (by decide)] at h
        injection h with h
        injection h with h1 h2
        subst h1
        subst h2
        right; right
        refine ⟨hA, rfl, ?_, rfl⟩
        rename_i hst
        simpa using hst
      · exact absurd heq (by simp)
    case h_15 =>
      exact absurd heq (by simp)
    all_goals
      rename_i hA
      have hp : payload.status = "ok" ∧ payload.result = none ∧ payload.screenshot = none := by
        first
        | exact _mouse_move_ok_payload heq
        | exact _left_click_ok_payload heq
        | exact _right_click_ok_payload heq
        | exact _middle_click_ok_payload heq
        | exact _double_click_ok_payload heq
        | exact _triple_click_ok_payload heq
        | exact _left_click_drag_ok_payload heq
        | exact _scroll_ok_payload heq
        | exact _hscroll_ok_payload heq
        | exact _type_ok_payload heq
        | exact _key_ok_payload heq
        | exact _wait_ok_payload heq
      obtain ⟨hs, hr, hn⟩ := hp
      rw [hA] at h
      rw [if_neg (by decide)] at h
      injection h with h
      injection h with h1 h2
      subst h1
      subst h2
      left
      refine ⟨by rw [hA]; decide, by rw [hA]; decide, ?_⟩
      simp only [_attach_screenshot, monitorOf]
      exact ⟨hs, hr, ⟨_, rfl, rfl, rfl⟩⟩

/-- A dispatched result with `terminate` status always carries a
`success` or `failure` verdict (the `_terminate` handler validated
it). -/
theorem call_terminate_result {cfg st req res st'}
    (h : ComputerUseTool.call cfg st req = Except.ok (res, st'))
    (hst : res.payload.status = "terminate") :
    res.payload.result = some "success" ∨ res.payload.result = some "failure" := by
  rcases call_ok_shape cfg st req res st' h with ⟨_, _, h1, _⟩ | ⟨_, h1, _⟩ | ⟨_, _, h1, _⟩
  · rw [hst] at h1; exact absurd h1 (by decide)
  · rw [hst] at h1; exact absurd h1 (by decide)
  · exact h1

/-- Shape of a fully successful round dispatch: it appends exactly one
correlated `tool`-role result message per call, in call order; the
termination verdict becomes truthy exactly when it already was or some
appended result signals termination; and it is untouched when no
appended result signals termination. -/
theorem dispatchCalls_ok (cfg : ToolConfig) :
    ∀ (calls : List ToolCallMsg) (s s' : RunState),
    dispatchCalls cfg s calls = Except.ok s' →
    ∃ ms, s'.messages = s.messages ++ ms ∧ resultsFor calls ms = true ∧
      (strTruthy s'.terminated = true ↔
        (strTruthy s.terminated = true ∨ ∃ m ∈ ms, isTerminateMsg m = true)) ∧
      ((∀ m ∈ ms, isTerminateMsg m = false) → s'.terminated = s.terminated) := by
  intro calls
  induction calls with
  | nil =>
    intro s s' h
    unfold dispatchCalls at h
    injection h with h
    subst h
    exact ⟨[], by simp, by simp [resultsFor], by simp, fun _ => rfl⟩
  | cons tc rest ih =>
    intro s s' h
    unfold dispatchCalls at h
    cases harg : tc.arguments
    case malformed raw =>
      rw [harg] at h
      dsimp only at h
      cases h
    case parsed req =>
      rw [harg] at h
      dsimp only at h
      cases hcall : ComputerUseTool.call cfg s.tool req
      case error e =>
        rw [hcall] at h
        dsimp only at h
        cases h
      case ok out =>
        rw [hcall] at h
        obtain ⟨result, toolSt⟩ := out
        dsimp only at h
        obtain ⟨ms', hmsg, hres, hiff, hpres⟩ := ih _ s' h
        refine ⟨Message.tool tc.id tc.name result.payload :: ms', ?_, ?_, ?_, ?_⟩
        · rw [hmsg]
          simp
        · simp only [resultsFor, List.zip_cons_cons, List.all_cons, List.length_cons] at hres ⊢
          simp only [isResultFor, beq_self_eq_true, Bool.and_self, Bool.true_and]
          simp only [Bool.and_eq_true, beq_iff_eq] at hres ⊢
          exact ⟨by omega, hres.2⟩
        · by_cases hst : result.payload.status = "terminate"
          · have hterm := call_terminate_result hcall hst
            have hmem : isTerminateMsg (Message.tool tc.id tc.name result.payload) = true := by
              simp [isTerminateMsg, hst]
            constructor
            · intro _
              exact Or.inr ⟨_, List.mem_cons_self _ _, hmem⟩
            · intro _
              apply hiff.mpr
              left
              dsimp only
              rw [if_pos hst]
              rcases hterm with h2 | h2 <;> rw [h2] <;> decide
          · dsimp only at hiff
            rw [hiff, if_neg hst]
            constructor
            · rintro (h2 | ⟨m, hm, h2⟩)
              · exact Or.inl h2
              · exact Or.inr ⟨m, List.mem_cons_of_mem _ hm, h2⟩
            · rintro (h2 | ⟨m, hm, h2⟩)
              · exact Or.inl h2
              · rcases List.mem_cons.mp hm with rfl | hm'
                · simp [isTerminateMsg, hst] at h2
                · exact Or.inr ⟨m, hm', h2⟩
        · intro hall
          have hhd : isTerminateMsg (Message.tool tc.id tc.name result.payload) = false :=
            hall _ (List.mem_cons_self _ _)
          have hst : ¬ result.payload.status = "terminate" := by
            simp [isTerminateMsg] at hhd
            exact hhd
          have h2 := hpres fun m hm => hall m (List.mem_cons_of_mem _ hm)
          dsimp only at h2
          rw [h2, if_neg hst]

/-- Dispatching a concatenated list of calls runs the first part and,
if it did not raise, continues with the second from the reached
state. -/
theorem dispatchCalls_append (cfg : ToolConfig) :
    ∀ (pre rest : List ToolCallMsg) (s : RunState),
    dispatchCalls cfg s (pre ++ rest) =
      (match dispatchCalls cfg s pre with
       | Except.error e => Except.error e
       | Except.ok s1 => dispatchCalls cfg s1 rest) := by
  intro pre
  induction pre with
  | nil =>
    intro rest s
    simp [dispatchCalls]
  | cons tc pre ih =>
    intro rest s
    simp only [List.cons_append]
    cases harg : tc.arguments with
    | malformed raw => simp [dispatchCalls, harg]
    | parsed req =>
      cases hcall : ComputerUseTool.call cfg s.tool req with
      | error e => simp [dispatchCalls, harg, hcall]
      | ok out =>
        obtain ⟨result, toolSt⟩ := out
        simp only [dispatchCalls, harg, hcall]
        exact ih rest _

/-- A normally finished loop only appends to history, and its
termination verdict is untouched unless some appended `tool`-role
result signalled termination. -/
theorem runLoop_finished_shape (cfg : ToolConfig) (oracle : Nat → ModelReply) :
    ∀ (fuel step : Nat) (s s' : RunState),
    runLoop cfg oracle step fuel s = RunResult.finished s' →
    ∃ ms, s'.messages = s.messages ++ ms ∧
      ((∀ m ∈ ms, isTerminateMsg m = false) → s'.terminated = s.terminated) := by
  intro fuel
  induction fuel with
  | zero =>
    intro step s s' h
    unfold runLoop at h
    injection h with h
    subst h
    exact ⟨[], by simp, fun _ => rfl⟩
  | succ fuel ih =>
    intro step s s' h
    unfold runLoop at h
    dsimp only at h
    by_cases hc : (oracle step).tool_calls = []
    · rw [if_pos hc] at h
      injection h with h
      subst h
      exact ⟨[Message.assistant (oracle step)], by simp [withAssistant], fun _ => rfl⟩
    · rw [if_neg hc] at h
      cases hd : dispatchCalls cfg (withAssistant s (oracle step)) (oracle step).tool_calls with
      | error out =>
        obtain ⟨e, s1⟩ := out
        rw [hd] at h
        dsimp only at h
        cases h
      | ok s1 =>
        rw [hd] at h
        dsimp only at h
        obtain ⟨ms1, hm1, hres1, hiff1, hp1⟩ := dispatchCalls_ok cfg _ _ _ hd
        by_cases ht : strTruthy s1.terminated = true
        · rw [if_pos ht] at h
          injection h with h
          subst h
          refine ⟨Message.assistant (oracle step) :: ms1, ?_, ?_⟩
          · rw [hm1]
            simp [withAssistant]
          · intro hall
            have := hp1 fun m hm => hall m (List.mem_cons_of_mem _ hm)
            rw [this]
            rfl
        · rw [if_neg ht] at h
          obtain ⟨ms2, hm2, hp2⟩ := ih _ _ _ h
          refine ⟨Message.assistant (oracle step) :: (ms1 ++ ms2), ?_, ?_⟩
          · rw [hm2, hm1]
            simp [withAssistant]
          · intro hall
            have hA1 := hp1 fun m hm =>
              hall m (List.mem_cons_of_mem _ (List.mem_append_left _ hm))
            have hA2 := hp2 fun m hm =>
              hall m (List.mem_cons_of_mem _ (List.mem_append_right _ hm))
            rw [hA2, hA1]
            rfl


/-- A sample configuration used for concrete witnesses. -/
def sampleCfg : ToolConfig :=
  { screenshot_dir := "shots"
    monitor_index := 1
    monitors := [{ width := 3840, height := 2160 }, { width := 1920, height := 1080 }] }

/-- A sample backend state used for concrete witnesses. -/
def sampleSt : ToolState := { cursor := (5, 6) }

/-- Extract the value of a successful `Except`, with a fallback. -/
def exceptOk {ε α : Type} (e : Except ε α) (d : α) : α :=
  match e with
  | Except.ok a => a
  | Except.error _ => d

/-- The click-in-place behaviour: the dispatch succeeds with an `ok`
status, the cursor does not move, and exactly one in-place click of the
given button is emitted. -/
def clickInPlaceOk (cfg : ToolConfig) (st : ToolState) (req : ActionRequest)
    (b : String) : Prop :=
  ∃ res st', ComputerUseTool.call cfg st req = Except.ok (res, st') ∧
    res.payload.status = "ok" ∧ st'.cursor = st.cursor ∧
    st'.events = st.events ++ [InputEvent.clickInPlace b]

/-- `_left_click` with a falsy coordinate clicks in place. -/
theorem _left_click_no_coord (cfg : ToolConfig) (st : ToolState) (req : ActionRequest)
    (hc : listTruthy req.coordinate = false) :
    _left_click cfg st req = Except.ok
      ({ status := "ok", detail := some "Left click at current cursor." },
       { st with events := st.events ++ [InputEvent.clickInPlace "left"] }) := by
  unfold _left_click
  simp [hc]

/-- `_right_click` with a falsy coordinate clicks in place. -/
theorem _right_click_no_coord (cfg : ToolConfig) (st : ToolState) (req : ActionRequest)
    (hc : listTruthy req.coordinate = false) :
    _right_click cfg st req = Except.ok
      ({ status := "ok", detail := some "Right click at current cursor." },
       { st with events := st.events ++ [InputEvent.clickInPlace "right"] }) := by
  unfold _right_click
  simp [hc]

/-- `_middle_click` with a falsy coordinate clicks in place. -/
theorem _middle_click_no_coord (cfg : ToolConfig) (st : ToolState) (req : ActionRequest)
    (hc : listTruthy req.coordinate = false) :
    _middle_click cfg st req = Except.ok
      ({ status := "ok", detail := some "Middle click at current cursor." },
       { st with events := st.events ++ [InputEvent.clickInPlace "middle"] }) := by
  unfold _middle_click
  simp [hc]

/-- Full dispatch of a `left_click` with a falsy coordinate. -/
theorem call_left_click_no_coord (cfg : ToolConfig) (st : ToolState) (req : ActionRequest)
    (hA : req.action = "left_click") (hc : listTruthy req.coordinate = false) :
    ComputerUseTool.call cfg st req =
      (let p : Payload := { status := "ok", detail := some "Left click at current cursor." }
       let st1 : ToolState := { st with events := st.events ++ [InputEvent.clickInPlace "left"] }
       Except.ok ({ payload := (_attach_screenshot cfg st1 p).1 }, (_attach_screenshot cfg st1 p).2)) := by
  have hL := _left_click_no_coord cfg st req hc
  unfold ComputerUseTool.call
  rw [hA, hL]
  rfl

/-- Full dispatch of a `right_click` with a falsy coordinate. -/
theorem call_right_click_no_coord (cfg : ToolConfig) (st : ToolState) (req : ActionRequest)
    (hA : req.action = "right_click") (hc : listTruthy req.coordinate = false) :
    ComputerUseTool.call cfg st req =
      (let p : Payload := { status := "ok", detail := some "Right click at current cursor." }
       let st1 : ToolState := { st with events := st.events ++ [InputEvent.clickInPlace "right"] }
       Except.ok ({ payload := (_attach_screenshot cfg st1 p).1 }, (_attach_screenshot cfg st1 p).2)) := by
  have hL := _right_click_no_coord cfg st req hc
  unfold ComputerUseTool.call
  rw [hA, hL]
  rfl

/-- Full dispatch of a `middle_click` with a falsy coordinate. -/
theorem call_middle_click_no_coord (cfg : ToolConfig) (st : ToolState) (req : ActionRequest)
    (hA : req.action = "middle_click") (hc : listTruthy req.coordinate = false) :
    ComputerUseTool.call cfg st req =
      (let p : Payload := { status := "ok", detail := some "Middle click at current cursor." }
       let st1 : ToolState := { st with events := st.events ++ [InputEvent.clickInPlace "middle"] }
       Except.ok ({ payload := (_attach_screenshot cfg st1 p).1 }, (_attach_screenshot cfg st1 p).2)) := by
  have hL := _middle_click_no_coord cfg st req hc
  unfold ComputerUseTool.call
  rw [hA, hL]
  rfl

/-- C1 counterexample: a `mouse_move` request without a coordinate does
not click in place — `_ensure_xy` raises the coordinate `ValueError`,
so the dispatch fails instead of returning an `ok` status. -/
theorem c1_mouse_move_no_coordinate_fails :
    ComputerUseTool.call sampleCfg sampleSt { action := "mouse_move" } =
      Except.error (ToolError.valueError "coordinate=[x, y] is required for this action.") := by
  decide

/-- C1 (amended): for `left_click`, `right_click` and `middle_click`
the coordinate is optional and its absence yields a click at the
current cursor position with an `ok` status and no error; `mouse_move`,
however, requires a coordinate and fails with the coordinate
`ValueError` when it is absent. -/
theorem c1_coordinate_optional_for_clicks_only (cfg : ToolConfig) (st : ToolState)
    (req : ActionRequest) (b : String) (hc : req.coordinate = none) :
    (((req.action = "left_click" ∧ b = "left") ∨ (req.action = "right_click" ∧ b = "right") ∨
        (req.action = "middle_click" ∧ b = "middle")) →
      clickInPlaceOk cfg st req b) ∧
    (req.action = "mouse_move" →
      ComputerUseTool.call cfg st req =
        Except.error (ToolError.valueError "coordinate=[x, y] is required for this action.")) := by
  have hfalsy : listTruthy req.coordinate = false := by rw [hc]; rfl
  constructor
  · rintro (⟨hA, rfl⟩ | ⟨hA, rfl⟩ | ⟨hA, rfl⟩)
    · rw [clickInPlaceOk, call_left_click_no_coord cfg st req hA hfalsy]
      exact ⟨_, _, rfl, rfl, rfl, rfl⟩
    · rw [clickInPlaceOk, call_right_click_no_coord cfg st req hA hfalsy]
      exact ⟨_, _, rfl, rfl, rfl, rfl⟩
    · rw [clickInPlaceOk, call_middle_click_no_coord cfg st req hA hfalsy]
      exact ⟨_, _, rfl, rfl, rfl, rfl⟩
  · intro hA
    unfold ComputerUseTool.call
    rw [hA]
    unfold _mouse_move
    rw [hc]
    rfl

/-- C1 witness: with no coordinate, a concrete `left_click` clicks in
place while a concrete `mouse_move` fails with the coordinate error. -/
theorem c1_coordinate_optional_for_clicks_only_witness :
    clickInPlaceOk sampleCfg sampleSt { action := "left_click" } "left" ∧
    ComputerUseTool.call sampleCfg sampleSt { action := "mouse_move" } =
      Except.error (ToolError.valueError "coordinate=[x, y] is required for this action.") :=
  ⟨(c1_coordinate_optional_for_clicks_only sampleCfg sampleSt { action := "left_click" } "left"
      rfl).1 (Or.inl ⟨rfl, rfl⟩),
   (c1_coordinate_optional_for_clicks_only sampleCfg sampleSt { action := "mouse_move" } "left"
      rfl).2 rfl⟩

/-- C9: for the three click actions, an empty coordinate list behaves
exactly like an absent coordinate — the whole dispatch result is the
same, and the click lands at the current cursor position with an `ok`
status instead of a validation error. -/
theorem c9_empty_coordinate_clicks_in_place (cfg : ToolConfig) (st : ToolState)
    (req : ActionRequest) (b : String) (hc : req.coordinate = some [])
    (hb : (req.action = "left_click" ∧ b = "left") ∨ (req.action = "right_click" ∧ b = "right") ∨
      (req.action = "middle_click" ∧ b = "middle")) :
    ComputerUseTool.call cfg st req =
      ComputerUseTool.call cfg st { req with coordinate := none } ∧
    clickInPlaceOk cfg st req b := by
  have hfalsy : listTruthy req.coordinate = false := by rw [hc]; rfl
  have hfalsy' : listTruthy ({ req with coordinate := none } : ActionRequest).coordinate = false := rfl
  rcases hb with ⟨hA, rfl⟩ | ⟨hA, rfl⟩ | ⟨hA, rfl⟩
  · refine ⟨?_, ?_⟩
    · rw [call_left_click_no_coord cfg st req hA hfalsy,
        call_left_click_no_coord cfg st { req with coordinate := none } hA hfalsy']
    · rw [clickInPlaceOk, call_left_click_no_coord cfg st req hA hfalsy]
      exact ⟨_, _, rfl, rfl, rfl, rfl⟩
  · refine ⟨?_, ?_⟩
    · rw [call_right_click_no_coord cfg st req hA hfalsy,
        call_right_click_no_coord cfg st { req with coordinate := none } hA hfalsy']
    · rw [clickInPlaceOk, call_right_click_no_coord cfg st req hA hfalsy]
      exact ⟨_, _, rfl, rfl, rfl, rfl⟩
  · refine ⟨?_, ?_⟩
    · rw [call_middle_click_no_coord cfg st req hA hfalsy,
        call_middle_click_no_coord cfg st { req with coordinate := none } hA hfalsy']
    · rw [clickInPlaceOk, call_middle_click_no_coord cfg st req hA hfalsy]
      exact ⟨_, _, rfl, rfl, rfl, rfl⟩

/-- C9 witness: a concrete `right_click` with `coordinate = []` equals
the same request without a coordinate and clicks in place. -/
theorem c9_empty_coordinate_clicks_in_place_witness :
    ComputerUseTool.call sampleCfg sampleSt { action := "right_click", coordinate := some [] } =
      ComputerUseTool.call sampleCfg sampleSt
        { ({ action := "right_click", coordinate := some [] } : ActionRequest) with coordinate := none } ∧
    clickInPlaceOk sampleCfg sampleSt { action := "right_click", coordinate := some [] } "right" :=
  c9_empty_coordinate_clicks_in_place sampleCfg sampleSt
    { action := "right_click", coordinate := some [] } "right" rfl (Or.inr (Or.inl ⟨rfl, rfl⟩))

/-- `_ensure_xy` rejects any present coordinate list whose length is
not exactly 2. -/
theorem _ensure_xy_len_ne_two (coord : List ℚ) (h : coord.length ≠ 2) :
    _ensure_xy (some coord) =
      Except.error (ToolError.valueError "coordinate=[x, y] is required for this action.") := by
  cases coord with
  | nil => rfl
  | cons x t =>
    cases t with
    | nil => rfl
    | cons y t2 =>
      cases t2 with
      | nil => exact absurd rfl h
      | cons z t3 => rfl

/-- C10: every coordinate-requiring action (`mouse_move`,
`double_click`, `triple_click`, `left_click_drag`) rejects a present
coordinate list whose length differs from 2 — too short or too long —
with the coordinate `ValueError`. -/
theorem c10_coordinate_wrong_length_fails (cfg : ToolConfig) (st : ToolState)
    (req : ActionRequest) (coord : List ℚ)
    (ha : req.action = "mouse_move" ∨ req.action = "double_click" ∨
      req.action = "triple_click" ∨ req.action = "left_click_drag")
    (hc : req.coordinate = some coord) (hlen : coord.length ≠ 2) :
    ComputerUseTool.call cfg st req =
      Except.error (ToolError.valueError "coordinate=[x, y] is required for this action.") := by
  have he : _ensure_xy req.coordinate =
      Except.error (ToolError.valueError "coordinate=[x, y] is required for this action.") := by
    rw [hc]
    exact _ensure_xy_len_ne_two coord hlen
  rcases ha with hA | hA | hA | hA
  · unfold ComputerUseTool.call
    rw [hA]
    unfold _mouse_move
    rw [he]
    rfl
  · unfold ComputerUseTool.call
    rw [hA]
    unfold _double_click
    rw [he]
    rfl
  · unfold ComputerUseTool.call
    rw [hA]
    unfold _triple_click
    rw [he]
    rfl
  · unfold ComputerUseTool.call
    rw [hA]
    unfold _left_click_drag
    rw [he]
    rfl

/-- C10 witness: a concrete `double_click` with the 3-element
coordinate `[1, 2, 3]` fails with the coordinate error. -/
theorem c10_coordinate_wrong_length_fails_witness :
    ComputerUseTool.call sampleCfg sampleSt
        { action := "double_click", coordinate := some [1, 2, 3] } =
      Except.error (ToolError.valueError "coordinate=[x, y] is required for this action.") :=
  c10_coordinate_wrong_length_fails sampleCfg sampleSt
    { action := "double_click", coordinate := some [1, 2, 3] } [1, 2, 3]
    (Or.inr (Or.inl rfl)) rfl (by decide)

/-- C7: a `key` request with an absent or empty key list fails with the
keys `ValueError`; with a non-empty list it emits one key-down event
per key in request order followed by one key-up event per key in
reverse order (a chord), and reports an `ok` status. -/
theorem c7_key_chord_order (cfg : ToolConfig) (st : ToolState) (req : ActionRequest)
    (hA : req.action = "key") :
    ((req.keys = none ∨ req.keys = some []) →
      ComputerUseTool.call cfg st req =
        Except.error (ToolError.valueError "keys is required for action=key.")) ∧
    (∀ ks, req.keys = some ks → ks ≠ [] →
      ∃ res st', ComputerUseTool.call cfg st req = Except.ok (res, st') ∧
        res.payload.status = "ok" ∧
        st'.events = st.events ++ ks.map InputEvent.keyDown ++ (ks.reverse.map InputEvent.keyUp)) := by
  constructor
  · intro hk
    unfold ComputerUseTool.call
    rw [hA]
    unfold _key
    rcases hk with hk | hk <;> rw [hk] <;> rfl
  · intro ks hks hne
    cases ks with
    | nil => exact absurd rfl hne
    | cons a t =>
      have hK : _key cfg st req = Except.ok
          ({ status := "ok", detail := some ("Pressed keys " ++ toString (a :: t) ++ ".") },
           { st with events := st.events ++ (a :: t).map InputEvent.keyDown ++
               ((a :: t).reverse.map InputEvent.keyUp) }) := by
        unfold _key
        rw [hks]
        rfl
      have hcallK : ComputerUseTool.call cfg st req =
          (let p : Payload :=
             { status := "ok"
               detail := some ("Pressed keys " ++ toString (a :: t) ++ ".") }
           let st1 : ToolState :=
             { st with events := st.events ++ (a :: t).map InputEvent.keyDown ++
                 ((a :: t).reverse.map InputEvent.keyUp) }
           Except.ok ({ payload := (_attach_screenshot cfg st1 p).1 }, (_attach_screenshot cfg st1 p).2)) := by
        unfold ComputerUseTool.call
        rw [hA, hK]
        rfl
      exact ⟨_, _, hcallK, rfl, rfl⟩

/-- C7 witness: an empty concrete `key` request fails, and a concrete
chord `["ctrl", "c"]` presses `ctrl` then `c` and releases `c` then
`ctrl`. -/
theorem c7_key_chord_order_witness :
    (ComputerUseTool.call sampleCfg sampleSt { action := "key" } =
      Except.error (ToolError.valueError "keys is required for action=key.")) ∧
    (∃ res st', ComputerUseTool.call sampleCfg sampleSt
        { action := "key", keys := some ["ctrl", "c"] } = Except.ok (res, st') ∧
      res.payload.status = "ok" ∧
      st'.events = sampleSt.events ++ ["ctrl", "c"].map InputEvent.keyDown ++
        (["ctrl", "c"].reverse.map InputEvent.keyUp)) :=
  ⟨(c7_key_chord_order sampleCfg sampleSt { action := "key" } rfl).1 (Or.inl rfl),
   (c7_key_chord_order sampleCfg sampleSt { action := "key", keys := some ["ctrl", "c"] } rfl).2
     ["ctrl", "c"] rfl (by decide)⟩

/-- C8: a `type` request with no text field fails with the text
`ValueError`, while an explicitly empty text is accepted: it types the
empty string and reports an `ok` status. -/
theorem c8_type_empty_text_ok (cfg : ToolConfig) (st : ToolState) (req : ActionRequest)
    (hA : req.action = "type") :
    (req.text = none →
      ComputerUseTool.call cfg st req =
        Except.error (ToolError.valueError "text is required for action=type.")) ∧
    (req.text = some "" →
      ∃ res st', ComputerUseTool.call cfg st req = Except.ok (res, st') ∧
        res.payload.status = "ok" ∧
        st'.events = st.events ++ [InputEvent.typewrite "" (1 / 100)]) := by
  constructor
  · intro ht
    unfold ComputerUseTool.call
    rw [hA]
    unfold _type
    rw [ht]
    rfl
  · intro ht
    have hT : _type cfg st req = Except.ok
        ({ status := "ok", detail := some ("Typed \"" ++ ("" : String).take 50 ++ "\".") },
         { st with events := st.events ++ [InputEvent.typewrite "" (1 / 100)] }) := by
      unfold _type
      rw [ht]
    have hcallT : ComputerUseTool.call cfg st req =
        (let p : Payload :=
           { status := "ok"
             detail := some ("Typed \"" ++ ("" : String).take 50 ++ "\".") }
         let st1 : ToolState :=
           { st with events := st.events ++ [InputEvent.typewrite "" (1 / 100)] }
         Except.ok ({ payload := (_attach_screenshot cfg st1 p).1 }, (_attach_screenshot cfg st1 p).2)) := by
      unfold ComputerUseTool.call
      rw [hA, hT]
      rfl
    exact ⟨_, _, hcallT, rfl, rfl⟩

/-- C8 witness: a concrete `type` with no text fails; a concrete `type`
with empty text succeeds. -/
theorem c8_type_empty_text_ok_witness :
    (ComputerUseTool.call sampleCfg sampleSt { action := "type" } =
      Except.error (ToolError.valueError "text is required for action=type.")) ∧
    (∃ res st', ComputerUseTool.call sampleCfg sampleSt
        { action := "type", text := some "" } = Except.ok (res, st') ∧
      res.payload.status = "ok" ∧
      st'.events = sampleSt.events ++ [InputEvent.typewrite "" (1 / 100)]) :=
  ⟨(c8_type_empty_text_ok sampleCfg sampleSt { action := "type" } rfl).1 rfl,
   (c8_type_empty_text_ok sampleCfg sampleSt { action := "type", text := some "" } rfl).2 rfl⟩

/-- C6: a successfully dispatched action result carries a screenshot
exactly when the action is neither `answer` nor `terminate`, and any
attached screenshot records the post-action cursor position and the
configured monitor's geometry. -/
theorem c6_screenshot_iff_not_bookkeeping (cfg : ToolConfig) (st : ToolState)
    (req : ActionRequest) (res : ToolResult) (st' : ToolState)
    (h : ComputerUseTool.call cfg st req = Except.ok (res, st')) :
    (res.payload.screenshot.isSome = true ↔
      (req.action ≠ "answer" ∧ req.action ≠ "terminate")) ∧
    (∀ ref, res.payload.screenshot = some ref →
      ref.cursor = st'.cursor ∧ ref.display = monitorOf cfg) := by
  rcases call_ok_shape cfg st req res st' h with
    ⟨h1, h2, _, _, ref, href, hcur, hdisp⟩ | ⟨hA, _, _, hscr, _⟩ | ⟨hA, _, _, hscr⟩
  · constructor
    · rw [href]
      simp only [Option.isSome_some, true_iff]
      exact ⟨h1, h2⟩
    · intro r hr
      rw [href] at hr
      cases hr
      exact ⟨hcur, hdisp⟩
  · constructor
    · rw [hscr]
      simp [hA]
    · intro r hr
      rw [hscr] at hr
      cases hr
  · constructor
    · rw [hscr]
      simp [hA]
    · intro r hr
      rw [hscr] at hr
      cases hr

/-- C6 witness: a concrete successful `left_click` dispatch satisfies
the screenshot policy. -/
theorem c6_screenshot_iff_not_bookkeeping_witness :
    ((exceptOk (ComputerUseTool.call sampleCfg sampleSt { action := "left_click" })
        ({ payload := { status := "x" } }, sampleSt)).1.payload.screenshot.isSome = true ↔
      (({ action := "left_click" } : ActionRequest).action ≠ "answer" ∧
        ({ action := "left_click" } : ActionRequest).action ≠ "terminate")) ∧
    (∀ ref, (exceptOk (ComputerUseTool.call sampleCfg sampleSt { action := "left_click" })
        ({ payload := { status := "x" } }, sampleSt)).1.payload.screenshot = some ref →
      ref.cursor = (exceptOk (ComputerUseTool.call sampleCfg sampleSt { action := "left_click" })
        ({ payload := { status := "x" } }, sampleSt)).2.cursor ∧
      ref.display = monitorOf sampleCfg) :=
  c6_screenshot_iff_not_bookkeeping sampleCfg sampleSt { action := "left_click" }
    (exceptOk (ComputerUseTool.call sampleCfg sampleSt { action := "left_click" })
      ({ payload := { status := "x" } }, sampleSt)).1
    (exceptOk (ComputerUseTool.call sampleCfg sampleSt { action := "left_click" })
      ({ payload := { status := "x" } }, sampleSt)).2
    (by decide)

/-- C4 (amended): a round whose model reply carries N tool-call
requests and whose calls all parse and dispatch without error appends
the reply followed by exactly N `tool`-role result messages, in call
order, each tagged with its originating call's identifier; the loop
then either finishes with, or continues from, exactly that state. -/
theorem c4_round_appends_one_result_per_call (cfg : ToolConfig) (oracle : Nat → ModelReply)
    (step fuel : Nat) (s s' : RunState)
    (hcalls : (oracle step).tool_calls ≠ [])
    (hdisp : dispatchCalls cfg (withAssistant s (oracle step)) (oracle step).tool_calls =
      Except.ok s') :
    ∃ ms, s'.messages = s.messages ++ [Message.assistant (oracle step)] ++ ms ∧
      ms.length = (oracle step).tool_calls.length ∧
      resultsFor (oracle step).tool_calls ms = true ∧
      (runLoop cfg oracle step (fuel + 1) s = RunResult.finished s' ∨
        runLoop cfg oracle step (fuel + 1) s = runLoop cfg oracle (step + 1) fuel s') := by
  obtain ⟨ms, hm, hres, _, _⟩ := dispatchCalls_ok cfg _ _ _ hdisp
  have hlen : ms.length = (oracle step).tool_calls.length := by
    have h2 := hres
    simp only [resultsFor, Bool.and_eq_true, beq_iff_eq] at h2
    exact h2.1
  have hstep : runLoop cfg oracle step (fuel + 1) s =
      (if strTruthy s'.terminated = true then RunResult.finished s'
       else runLoop cfg oracle (step + 1) fuel s') := by
    conv_lhs => rw [runLoop]
    rw [if_neg hcalls, hdisp]
  refine ⟨ms, ?_, hlen, hres, ?_⟩
  · rw [hm]
    simp [withAssistant]
  · by_cases ht : strTruthy s'.terminated = true
    · rw [hstep, if_pos ht]
      exact Or.inl rfl
    · rw [hstep, if_neg ht]
      exact Or.inr rfl

/-- C3 (amended): when some result of a round whose calls all parse
and dispatch without error signals termination, the loop still appends
one correlated result message for every call of the round, in order,
and only then finishes with the state reached at the end of the
round — never aborting mid-round. -/
theorem c3_terminate_finishes_after_full_round (cfg : ToolConfig) (oracle : Nat → ModelReply)
    (step fuel : Nat) (s s' : RunState) (ms : List Message)
    (hcalls : (oracle step).tool_calls ≠ [])
    (hdisp : dispatchCalls cfg (withAssistant s (oracle step)) (oracle step).tool_calls =
      Except.ok s')
    (hmsgs : s'.messages = s.messages ++ [Message.assistant (oracle step)] ++ ms)
    (hterm : ∃ m ∈ ms, isTerminateMsg m = true) :
    runLoop cfg oracle step (fuel + 1) s = RunResult.finished s' ∧
    resultsFor (oracle step).tool_calls ms = true := by
  obtain ⟨ms0, hm0, hres0, hiff0, _⟩ := dispatchCalls_ok cfg _ _ _ hdisp
  have h1 : (s.messages ++ [Message.assistant (oracle step)]) ++ ms0 =
      (s.messages ++ [Message.assistant (oracle step)]) ++ ms := by
    have h2 := hm0.symm.trans hmsgs
    simpa [withAssistant] using h2
  have hmseq : ms0 = ms := List.append_cancel_left h1
  subst hmseq
  have ht : strTruthy s'.terminated = true := by
    apply hiff0.mpr
    exact Or.inr hterm
  constructor
  · unfold runLoop
    dsimp only
    rw [if_neg hcalls, hdisp]
    dsimp only
    rw [if_pos ht]
  · exact hres0

/-- C2 counterexample request: tool call whose argument string is not
valid JSON. -/
def badCall : ToolCallMsg :=
  { id := "call-1", name := "computer_use", arguments := Arguments.malformed "not-json" }

/-- A model reply consisting of the single malformed tool call. -/
def badReply : ModelReply := { content := none, tool_calls := [badCall] }

/-- An oracle that always replies with the malformed tool call. -/
def badOracle : Nat → ModelReply := fun _ => badReply

set_option maxRecDepth 8192 in
/-- C2 counterexample: on a reply whose tool-call arguments are not
valid JSON the loop does crash — the run ends abnormally with the JSON
decode failure and no `tool`-role result message is appended for the
failing call (the history stops at the assistant reply). -/
theorem c2_malformed_arguments_crash_loop :
    ComputerUseAgent.run sampleCfg badOracle "task" 5 sampleSt =
      RunResult.crashed (RunError.jsonDecodeError "not-json")
        { messages := [Message.system SYSTEM_PROMPT, Message.user "task",
            Message.assistant badReply]
          final_answer := none
          terminated := none
          tool := sampleSt } := by
  decide

/-- C2 (amended): a tool call with invalid JSON arguments makes the
round crash with the uncaught JSON decode failure at the state reached
after the calls before it: earlier calls of the round keep their
appended results, but neither the malformed call nor any later call of
the round receives a result message, and the loop ends abnormally
instead of surfacing a failed tool result. -/
theorem c2_malformed_arguments_raise (cfg : ToolConfig) (oracle : Nat → ModelReply)
    (step fuel : Nat) (s s1 : RunState) (pre post : List ToolCallMsg)
    (tc : ToolCallMsg) (raw : String)
    (hreply : (oracle step).tool_calls = pre ++ tc :: post)
    (hm : tc.arguments = Arguments.malformed raw)
    (hpre : dispatchCalls cfg (withAssistant s (oracle step)) pre = Except.ok s1) :
    runLoop cfg oracle step (fuel + 1) s =
      RunResult.crashed (RunError.jsonDecodeError raw) s1 := by
  have hcalls : (oracle step).tool_calls ≠ [] := by
    rw [hreply]
    simp
  have hd : dispatchCalls cfg (withAssistant s (oracle step)) (oracle step).tool_calls =
      Except.error (RunError.jsonDecodeError raw, s1) := by
    rw [hreply, dispatchCalls_append, hpre]
    dsimp only
    unfold dispatchCalls
    rw [hm]
  unfold runLoop
  dsimp only
  rw [if_neg hcalls, hd]

/-- C2 witness: with an empty prefix, the concrete malformed round
crashes at the state holding only the assistant reply. -/
theorem c2_malformed_arguments_raise_witness :
    runLoop sampleCfg badOracle 1 5 (initState "task" sampleSt) =
      RunResult.crashed (RunError.jsonDecodeError "not-json")
        (withAssistant (initState "task" sampleSt) badReply) :=
  c2_malformed_arguments_raise sampleCfg badOracle 1 4 (initState "task" sampleSt)
    (withAssistant (initState "task" sampleSt) badReply) [] [] badCall "not-json" rfl rfl rfl

/-- A concrete `terminate` tool call used by witnesses. -/
def termCall : ToolCallMsg :=
  { id := "c1", name := "computer_use",
    arguments := Arguments.parsed { action := "terminate", status := some "success" } }

/-- A concrete `left_click` tool call used by witnesses. -/
def clickCall : ToolCallMsg :=
  { id := "c2", name := "computer_use",
    arguments := Arguments.parsed { action := "left_click" } }

/-- A concrete `key` tool call used by witnesses. -/
def keyCall : ToolCallMsg :=
  { id := "c3", name := "computer_use",
    arguments := Arguments.parsed { action := "key", keys := some ["a"] } }

/-- A reply that terminates first and then still clicks. -/
def termReply : ModelReply := { tool_calls := [termCall, clickCall] }

/-- An oracle that always sends `termReply`. -/
def termOracle : Nat → ModelReply := fun _ => termReply

/-- The state reached by fully dispatching the `termReply` round. -/
def c3S1 : RunState :=
  exceptOk (dispatchCalls sampleCfg (withAssistant (initState "t" sampleSt) termReply)
    termReply.tool_calls) (initState "t" sampleSt)

/-- The messages appended by the `termReply` round dispatch. -/
def c3Ms : List Message := c3S1.messages.drop 3

set_option maxRecDepth 8192 in
/-- C3 witness: a concrete round that terminates on its first call
still dispatches the second call, appends both correlated results and
only then finishes. -/
theorem c3_terminate_finishes_after_full_round_witness :
    runLoop sampleCfg termOracle 1 (6 + 1) (initState "t" sampleSt) = RunResult.finished c3S1 ∧
    resultsFor (termOracle 1).tool_calls c3Ms = true :=
  c3_terminate_finishes_after_full_round sampleCfg termOracle 1 6 (initState "t" sampleSt)
    c3S1 c3Ms (by decide) (by decide) (by decide) (by decide)

/-- A reply carrying two ordinary tool calls. -/
def pairReply : ModelReply := { tool_calls := [clickCall, keyCall] }

/-- An oracle that always sends `pairReply`. -/
def pairOracle : Nat → ModelReply := fun _ => pairReply

/-- The state reached by fully dispatching the `pairReply` round. -/
def c4S1 : RunState :=
  exceptOk (dispatchCalls sampleCfg (withAssistant (initState "t" sampleSt) pairReply)
    pairReply.tool_calls) (initState "t" sampleSt)

set_option maxRecDepth 8192 in
/-- C4 witness: a concrete round with two tool calls appends exactly
two correlated `tool`-role results in order. -/
theorem c4_round_appends_one_result_per_call_witness :
    ∃ ms, c4S1.messages = (initState "t" sampleSt).messages ++
        [Message.assistant (pairOracle 1)] ++ ms ∧
      ms.length = (pairOracle 1).tool_calls.length ∧
      resultsFor (pairOracle 1).tool_calls ms = true ∧
      (runLoop sampleCfg pairOracle 1 (2 + 1) (initState "t" sampleSt) =
          RunResult.finished c4S1 ∨
        runLoop sampleCfg pairOracle 1 (2 + 1) (initState "t" sampleSt) =
          runLoop sampleCfg pairOracle 2 2 c4S1) :=
  c4_round_appends_one_result_per_call sampleCfg pairOracle 1 2 (initState "t" sampleSt) c4S1
    (by decide) (by decide)

/-- C5: a run that finishes without any dispatched result signalling
termination — in particular one that exhausts the configured turn
limit — ends with a null termination verdict, no matter what answers
were recorded; a fully dispatched round without a truthy verdict
continues the loop (an `answer` does not stop it); and dispatching an
`answer` call records its text as the provisional final answer while
leaving the termination verdict untouched. -/
theorem c5_turn_limit_keeps_terminated_null :
    (∀ (cfg : ToolConfig) (oracle : Nat → ModelReply) (task : String) (max_turns : Nat)
        (toolSt : ToolState) (s' : RunState),
      ComputerUseAgent.run cfg oracle task max_turns toolSt = RunResult.finished s' →
      (∀ m ∈ s'.messages, isTerminateMsg m = false) → s'.terminated = none) ∧
    (∀ (cfg : ToolConfig) (oracle : Nat → ModelReply) (step fuel : Nat) (s s' : RunState),
      (oracle step).tool_calls ≠ [] →
      dispatchCalls cfg (withAssistant s (oracle step)) (oracle step).tool_calls =
        Except.ok s' →
      strTruthy s'.terminated = false →
      runLoop cfg oracle step (fuel + 1) s = runLoop cfg oracle (step + 1) fuel s') ∧
    (∀ (cfg : ToolConfig) (s : RunState) (tc : ToolCallMsg) (req : ActionRequest),
      tc.arguments = Arguments.parsed req → req.action = "answer" →
      ∃ s', dispatchCalls cfg s [tc] = Except.ok s' ∧
        s'.final_answer = some (pyOr req.text) ∧ s'.terminated = s.terminated) := by
  refine ⟨?_, ?_, ?_⟩
  · intro cfg oracle task max_turns toolSt s' h hnone
    unfold ComputerUseAgent.run at h
    obtain ⟨ms, hm, hp⟩ := runLoop_finished_shape cfg oracle max_turns 1 (initState task toolSt) s' h
    have hpres : s'.terminated = (initState task toolSt).terminated := by
      apply hp
      intro m hmem
      exact hnone m (by rw [hm]; exact List.mem_append_right _ hmem)
    rw [hpres]
    rfl
  · intro cfg oracle step fuel s s' hcalls hdisp hfalse
    conv_lhs => rw [runLoop]
    rw [if_neg hcalls, hdisp]
    dsimp only
    rw [if_neg (by rw [hfalse]; decide)]
  · intro cfg s tc req harg hA
    have hcall : ComputerUseTool.call cfg s.tool req = Except.ok
        ({ payload := { status := "answer", text := some (pyOr req.text) } }, s.tool) := by
      unfold ComputerUseTool.call
      rw [hA]
      unfold _answer
      rfl
    have hs1 : dispatchCalls cfg s [tc] = Except.ok
        { messages := s.messages ++
            [Message.tool tc.id tc.name { status := "answer", text := some (pyOr req.text) }]
          final_answer := some (pyOr req.text)
          terminated := s.terminated
          tool := s.tool } := by
      unfold dispatchCalls
      rw [harg]
      dsimp only
      rw [hcall]
      rfl
    exact ⟨_, hs1, rfl, rfl⟩

/-- A concrete `answer` tool call used by witnesses. -/
def ansCall : ToolCallMsg :=
  { id := "a1", name := "computer_use",
    arguments := Arguments.parsed { action := "answer", text := some "done" } }

/-- A reply carrying one `answer` call. -/
def ansReply : ModelReply := { tool_calls := [ansCall] }

/-- An oracle that always answers and never terminates. -/
def ansOracle : Nat → ModelReply := fun _ => ansReply

/-- The final state of a 2-turn run against `ansOracle`. -/
def c5S : RunState :=
  finishedState (ComputerUseAgent.run sampleCfg ansOracle "t" 2 sampleSt) (initState "t" sampleSt)

/-- The state reached by dispatching one `ansReply` round. -/
def c5S1 : RunState :=
  exceptOk (dispatchCalls sampleCfg (withAssistant (initState "t" sampleSt) ansReply)
    ansReply.tool_calls) (initState "t" sampleSt)

set_option maxRecDepth 8192 in
/-- C5 witness: a concrete 2-turn run that only answers ends with a
null verdict; its first round continues the loop; and dispatching the
answer call records the provisional answer without terminating. -/
theorem c5_turn_limit_keeps_terminated_null_witness :
    c5S.terminated = none ∧
    runLoop sampleCfg ansOracle 1 (1 + 1) (initState "t" sampleSt) =
      runLoop sampleCfg ansOracle 2 1 c5S1 ∧
    (∃ s', dispatchCalls sampleCfg (initState "t" sampleSt) [ansCall] = Except.ok s' ∧
      s'.final_answer = some (pyOr (some "done")) ∧
      s'.terminated = (initState "t" sampleSt).terminated) :=
  ⟨c5_turn_limit_keeps_terminated_null.1 sampleCfg ansOracle "t" 2 sampleSt c5S
      (by decide) (by decide),
   c5_turn_limit_keeps_terminated_null.2.1 sampleCfg ansOracle 1 1 (initState "t" sampleSt)
      c5S1 (by decide) (by decide) (by decide),
   c5_turn_limit_keeps_terminated_null.2.2 sampleCfg (initState "t" sampleSt) ansCall
      { action := "answer", text := some "done" } rfl rfl⟩

/-- A concrete invalid `type` tool call (no text field): it parses as
JSON but fails validation when dispatched. -/
def badTypeCall : ToolCallMsg :=
  { id := "c4", name := "computer_use",
    arguments := Arguments.parsed { action := "type" } }

/-- A reply that terminates on its first call and then carries an
invalid call. -/
def termThenBadReply : ModelReply := { tool_calls := [termCall, badTypeCall] }

/-- An oracle that always sends `termThenBadReply`. -/
def termThenBadOracle : Nat → ModelReply := fun _ => termThenBadReply

set_option maxRecDepth 8192 in
/-- C3 counterexample: in a round whose first call resolves to
`terminate` but whose second call is invalid (`type` without text),
the run does abort mid-round — the second call raises, receives no
`tool`-role result message (only the terminate's message is appended),
and the run crashes instead of ending after completed appends. -/
theorem c3_invalid_call_after_terminate_aborts_mid_round :
    ComputerUseAgent.run sampleCfg termThenBadOracle "t" 5 sampleSt =
      RunResult.crashed
        (RunError.toolError (ToolError.valueError "text is required for action=type."))
        { messages := [Message.system SYSTEM_PROMPT, Message.user "t",
            Message.assistant termThenBadReply,
            Message.tool "c1" "computer_use" { status := "terminate", result := some "success" }]
          final_answer := none
          terminated := some "success"
          tool := sampleSt } := by
  decide

/-- A reply carrying a single invalid `type` call. -/
def soloBadReply : ModelReply := { tool_calls := [badTypeCall] }

/-- An oracle that always sends `soloBadReply`. -/
def soloBadOracle : Nat → ModelReply := fun _ => soloBadReply

set_option maxRecDepth 8192 in
/-- C4 counterexample: a round whose model reply carries N = 1
tool-call request appends zero `tool`-role messages when that call is
invalid — the dispatch raises and the run crashes with the history
stopping at the assistant reply. -/
theorem c4_invalid_call_round_appends_no_result :
    ComputerUseAgent.run sampleCfg soloBadOracle "t" 5 sampleSt =
      RunResult.crashed
        (RunError.toolError (ToolError.valueError "text is required for action=type."))
        { messages := [Message.system SYSTEM_PROMPT, Message.user "t",
            Message.assistant soloBadReply]
          final_answer := none
          terminated := none
          tool := sampleSt } := by
  decide
